import Mathlib

set_option autoImplicit false

/-!
Shallow embedding of the core of `oktad` (an Okta → AWS STS credential
fetcher) and proofs about it.

Source files embedded:
* `src/aws/credentials.rs` — the on-disk credentials store,
* `src/saml/mod.rs` — the SAML assertion parser,
* `src/okta/auth.rs` — the Okta login flow,
* `src/main.rs` — the orchestrator's role-matching step.

External crates (`serde_ini`, `base64`, `sxd_document`, `sxd_xpath`,
`dialoguer`, the HTTP client) are abstracted as explicit function
parameters / environment records; everything the repository's own code
does is translated directly.
-/

namespace Oktad

/-! ### `src/aws/credentials.rs` -/

/-- `ProfileCredentials`: an untagged two-variant record, discriminated on
round-trip by the presence of the `aws_session_token` field. -/
inductive ProfileCredentials where
  | sts (access_key_id secret_access_key session_token : String)
  | iam (access_key_id secret_access_key : String)
  deriving DecidableEq, Repr

/-- The in-memory image of the store's `BTreeMap<String, ProfileCredentials>`:
an association list, kept sorted strictly by key (the `BTreeMap` invariant). -/
abbrev Store := List (String × ProfileCredentials)

/-- The `BTreeMap` invariant: keys strictly increasing. -/
abbrev StoreSorted (s : Store) : Prop := s.Chain' fun a b => a.1 < b.1

/-- Key lookup in the mapping (what `BTreeMap::entry` discriminates on). -/
def findProfile : Store → String → Option ProfileCredentials
  | [], _ => none
  | (k, v) :: rest, n => if n = k then some v else findProfile rest n

/-- The error message produced by the `bail!` in `set_profile`
(`Profile '<name>' does not contain STS credentials. Ignoring`). -/
def conflictMsg (n : String) : String :=
  "Profile \x27" ++ n ++ "\x27 does not contain STS credentials. Ignoring"

/-- `CredentialsStore::set_profile`: `entry(name)`; on an occupied `Sts`
entry the value is replaced, on an occupied `Iam` entry the function bails
(leaving the map untouched), on a vacant entry the value is inserted.
Returned are the mapping after the call and the error message, if any.
Insertion keeps the association list sorted, mirroring `BTreeMap`. -/
def setProfile : Store → String → ProfileCredentials → Store × Option String
  | [], n, c => ([(n, c)], none)
  | (k, v) :: rest, n, c =>
    if n = k then
      match v with
      | .sts _ _ _ => ((k, c) :: rest, none)
      | .iam _ _ => ((k, v) :: rest, some (conflictMsg n))
    else if n < k then
      ((n, c) :: (k, v) :: rest, none)
    else
      let r := setProfile rest n c
      ((k, v) :: r.1, r.2)

/-- One INI section as `serde_ini` writes it: bracketed section header, then
the fields in the order they are declared in the Rust enum, each line
CRLF-terminated. -/
def serializeProfile (name : String) : ProfileCredentials → String
  | .sts a s t =>
      "[" ++ name ++ "]\r\n" ++
      "aws_access_key_id=" ++ a ++ "\r\n" ++
      "aws_secret_access_key=" ++ s ++ "\r\n" ++
      "aws_session_token=" ++ t ++ "\r\n"
  | .iam a s =>
      "[" ++ name ++ "]\r\n" ++
      "aws_access_key_id=" ++ a ++ "\r\n" ++
      "aws_secret_access_key=" ++ s ++ "\r\n"

/-- `serde_ini::ser::to_writer(self.file, &self.credentials)`: the whole map,
one section per profile, in map-iteration (key) order. -/
def serializeStore (s : Store) : String :=
  String.join (s.map fun p => serializeProfile p.1 p.2)

/-- `CredentialsStore::save`. The file handle sits at offset 0
(`TryFrom<File>` seeks back to the start after loading), and
`serde_ini::ser::to_writer` writes the serialized map from that offset.
Nothing truncates the file, so any bytes of the previous content beyond the
written length survive. `prev` is the file content before the call; the
result is the file content after it (characters stand for bytes; all
claim-relevant content is ASCII). -/
def save (prev : String) (s : Store) : String :=
  let out := serializeStore s
  out ++ String.mk (prev.toList.drop out.length)

/-! ### `src/saml/mod.rs` (and the `Role` value it produces) -/

/-- `Role` from `src/aws/role.rs` (that file is not among the core sources;
the shape is spec §3: a provider arn paired with a role arn). -/
structure Role where
  provider_arn : String
  role_arn : String
  deriving DecidableEq, Repr

/-- `str::split(<char>)` rendered over the character list (Rust semantics:
splitting the empty string yields one empty piece, adjacent separators
yield empty pieces). -/
def splitCharAux (c : Char) : List Char → List Char → List String
  | [], acc => [String.mk acc.reverse]
  | x :: xs, acc =>
    if x = c then String.mk acc.reverse :: splitCharAux c xs []
    else splitCharAux c xs (x :: acc)

/-- `s.split(c).collect::<Vec<_>>()`. -/
def splitChar (c : Char) (s : String) : List String :=
  splitCharAux c s.toList []

/-- Modelled from the spec: `Role: FromStr` lives in `src/aws/role.rs`, which
is not among the core sources. Spec §3: a role identifier is "parsed from a
two-part comma/slash-delimited string of the form `provider-arn,role-arn`"
and "both components must be present ...; malformed input is a parse
failure, never a partial value". The test in `src/saml/mod.rs` shows the
failure message for a one-part input: `Not enough elements in <input>`. -/
def Role.fromStr (s : String) : Except String Role :=
  match splitChar ',' s with
  | [p, r] => .ok ⟨p, r⟩
  | [] => .error ("Not enough elements in " ++ s)
  | [_] => .error ("Not enough elements in " ++ s)
  | _ => .error ("Too many elements in " ++ s)

/-- Modelled from the spec: `Role::role_name` lives in `src/aws/role.rs`,
which is not among the core sources. Spec §4.4 step 5 matches "a Role
Identifier whose role component equals the profile's configured role name";
the role component is the second slash-separated part of the role arn
(`arn:aws:iam::<account>:role/<name>`). The source returns a `Result`;
`none` here stands for its error case (any arn without exactly one slash). -/
def Role.roleName (r : Role) : Option String :=
  match splitChar '/' r.role_arn with
  | [_, name] => some name
  | _ => none

/-- Outcome of a fallible Rust call: `Ok`, an `Err` propagated by the
question-mark operator, or a panic (`unwrap` / `expect` / out-of-bounds
indexing), which aborts instead of returning. -/
inductive Outcome (ε α : Type) where
  | ok (a : α)
  | err (e : ε)
  | panic (msg : String)
  deriving DecidableEq, Repr

/-- Which question-mark operator fired inside `Response::from_str`. -/
inductive SamlError where
  /-- `base64::decode(&s)?` or `String::from_utf8(..)?` failed. -/
  | encoding
  /-- `Factory::new().build(..)?`, the `ok_or_else` after it, or
  `xpath.evaluate(..)?` failed. -/
  | xpath (msg : String)
  /-- `a.string_value().parse()` failed inside the `collect`. -/
  | role (msg : String)
  deriving DecidableEq, Repr

/-- The value of the XPath evaluation as consumed by `Response::from_str`:
a nodeset (represented by the string values of its nodes, in document
order), or a value of any other kind (the `_` arm). -/
inductive XPathValue where
  | nodeset (texts : List String)
  | other
  deriving DecidableEq, Repr

/-- `Response` (src/saml/mod.rs lines 11-15); `HashSet<Role>` becomes
`Finset Role`. -/
structure Response where
  raw : String
  roles : Finset Role
  deriving DecidableEq

/-- The external crates used by `Response::from_str`, abstracted as
functions. `Doc` is the type of parsed documents.
`decode` is `base64::decode` followed by `String::from_utf8` (`none` when
either fails); `xmlParse` is `sxd_document::parser::parse` (`none` on
malformed XML); `xpathBuild` is `Factory::new().build(..)` on the fixed
role-attribute query; `xpathEval` is `xpath.evaluate(&context, root)`. -/
structure SamlEnv (Doc : Type) where
  decode : String → Option String
  xmlParse : String → Option Doc
  xpathBuild : Except String (Option Unit)
  xpathEval : Doc → Except String XPathValue

/-- `ns.iter().map(|a| a.string_value().parse()).collect::<Result<HashSet<Role>, Error>>()`:
the first failing parse aborts the whole collection. The list keeps
document order; `Response.fromStr` turns it into the `HashSet`. -/
def parseRoles : List String → Except String (List Role)
  | [] => .ok []
  | t :: ts =>
    match Role.fromStr t with
    | .error e => .error e
    | .ok r => (parseRoles ts).map (r :: ·)

/-- `Response::from_str` (src/saml/mod.rs lines 20-47). Note the source
handles an XML parse failure with `.expect("Failed parsing xml")`, i.e. a
panic, not an error return. -/
def Response.fromStr {Doc : Type} (env : SamlEnv Doc) (s : String) :
    Outcome SamlError Response :=
  match env.decode s with
  | none => .err .encoding
  | some decoded_saml =>
    match env.xmlParse decoded_saml with
    | none => .panic "Failed parsing xml"
    | some document =>
      match env.xpathBuild with
      | .error e => .err (.xpath e)
      | .ok none => .err (.xpath "No XPath was compiled")
      | .ok (some _) =>
        match env.xpathEval document with
        | .error e => .err (.xpath e)
        | .ok (.nodeset ns) =>
          match parseRoles ns with
          | .error e => .err (.role e)
          | .ok rs => .ok ⟨s, rs.toFinset⟩
        | .ok .other => .ok ⟨s, ∅⟩

/-! ### `src/okta/auth.rs` -/

/-- `LoginState` (src/okta/auth.rs lines 77-92). -/
inductive LoginState where
  | unauthenticated
  | passwordWarn
  | passwordExpired
  | recovery
  | recoveryChallenge
  | passwordReset
  | lockedOut
  | mfaEnroll
  | mfaEnrollActivate
  | mfaRequired
  | mfaChallenge
  | success
  deriving DecidableEq, Repr

/-- Modelled from the spec: `Factor` lives in `src/okta/factors.rs`, which is
not among the core sources. Spec §3: it "describes one available MFA
mechanism (id, type, human label)", read-only; `get_session_token` only
ever passes it through, so it is kept opaque as its display string. -/
abbrev Factor := String

/-- `LoginEmbedded` (lines 69-75). Its `user` field is never read by
`get_session_token` and is omitted. -/
structure LoginEmbedded where
  factors : List Factor
  deriving DecidableEq, Repr

/-- `LoginResponse` (lines 55-67). The `_links` field is never read by
`get_session_token` and is omitted. -/
structure LoginResponse where
  state_token : Option String
  session_token : Option String
  expires_at : String
  status : LoginState
  relay_state : Option String
  embedded : Option LoginEmbedded
  deriving DecidableEq, Repr

/-- The only `FactorVerificationRequest` shape built by `get_session_token`:
`FactorVerificationRequest::Sms { state_token, pass_code }`. -/
inductive FactorVerificationRequest where
  | sms (state_token : String) (pass_code : Option String)
  deriving DecidableEq, Repr

/-- The external collaborators of `Client::get_session_token` for one
invocation: the HTTP calls (`self.login(req)` for the fixed request `req`,
and `self.verify`) and the two `dialoguer` prompts (`Select::interact`,
returning the chosen menu index, and `Input::interact`, returning the
typed passcode). -/
structure AuthEnv where
  login : Except String LoginResponse
  selectFactor : Except String Nat
  promptCode : Except String String
  verify : Factor → FactorVerificationRequest → Except String LoginResponse

/-- The message of the standard-library panic raised by `Option::unwrap`. -/
def unwrapMsg : String := "called Option::unwrap on a None value"

/-- The factor-selection `match factors.len()` (lines 119-132): zero factors
bails, one factor is taken without prompting, more than one factor shows a
`dialoguer` menu and indexes into the list with its answer. -/
def selectFactorFrom (env : AuthEnv) (factors : List Factor) :
    Outcome String Factor :=
  match factors with
  | [] => .err "MFA required, and no available factors"
  | [f] => .ok f
  | _ =>
    match env.selectFactor with
    | .error e => .err e
    | .ok i =>
      if h : i < factors.length then .ok (factors.get ⟨i, h⟩)
      else .panic "index out of bounds"

/-- The rest of the `MfaRequired` arm after a factor is chosen
(lines 136-168): extract the state token, prime the factor with a
passcode-less verification, extract the new state token, prompt for the
passcode, verify again with it, and unwrap the session token of whatever
response comes back — the source checks no status here. -/
def verifyFlow (env : AuthEnv) (response : LoginResponse) (factor : Factor) :
    Outcome String String :=
  match response.state_token with
  | none => .err "No state token found in response"
  | some state_token =>
    match env.verify factor (.sms state_token none) with
    | .error e => .err e
    | .ok factor_prompt_response =>
      match factor_prompt_response.state_token with
      | none => .err "No state token found in factor prompt response"
      | some prompt_state_token =>
        match env.promptCode with
        | .error e => .err e
        | .ok mfa_code =>
          match env.verify factor (.sms prompt_state_token (some mfa_code)) with
          | .error e => .err e
          | .ok factor_provided_response =>
            match factor_provided_response.session_token with
            | some token => .ok token
            | none => .panic unwrapMsg

/-- The whole `MfaRequired` arm (lines 114-169). -/
def mfaBranch (env : AuthEnv) (response : LoginResponse)
    (factors : List Factor) : Outcome String String :=
  match selectFactorFrom env factors with
  | .err e => .err e
  | .panic m => .panic m
  | .ok factor => verifyFlow env response factor

/-- `Client::get_session_token` (src/okta/auth.rs lines 107-175). `Success`
unwraps the session token (a panic when it is absent); `MfaRequired`
unwraps `embedded` and runs the MFA branch; every other status prints the
response and bails with `"Non MFA"`. -/
def getSessionToken (env : AuthEnv) : Outcome String String :=
  match env.login with
  | .error e => .err e
  | .ok response =>
    match response.status with
    | .success =>
      match response.session_token with
      | some token => .ok token
      | none => .panic unwrapMsg
    | .mfaRequired =>
      match response.embedded with
      | some emb => mfaBranch env response emb.factors
      | none => .panic unwrapMsg
    | _ => .err "Non MFA"

/-! ### `src/main.rs`: the role-matching step of `fetch_credentials` -/

/-- The error message of the `ok_or_else` at src/main.rs lines 167-173. -/
def noMatchingRoleMsg (target profileName : String) : String :=
  "No matching role (" ++ target ++ ") found for profile " ++ profileName

/-- The role-matching step (src/main.rs lines 164-173):
`roles.into_iter().find(|r| r.role_name().map(|r| r == profile.role).unwrap_or(false)).ok_or_else(..)`.
`roles` is a `HashSet` iterated in some order; the list argument is that
iteration order. -/
def findMatchingRole (roles : List Role) (target profileName : String) :
    Except String Role :=
  match roles.find? (fun r => (r.roleName.map (fun n => n == target)).getD false) with
  | some r => .ok r
  | none => .error (noMatchingRoleMsg target profileName)

/-! ### Concrete instances used by the counterexamples and witnesses -/

/-- A store with one IAM profile and one STS profile, sorted. -/
def exStore : Store :=
  [("example", .iam "AKIDEXAMPLE" "SECRETEXAMPLE"),
   ("existing", .sts "AKIDOLD" "SECRETOLD" "TOKENOLD")]

/-- Fresh STS credentials to upsert. -/
def exCreds : ProfileCredentials := .sts "AKIDNEW" "SECRETNEW" "TOKENNEW"

/-- Previous file content longer than the next serialization: one STS
profile with long field values. -/
def c2Prev : String :=
  serializeStore [("example", .sts "AKIDAVERYLONGKEY" "SECRETVERYLONGLONG" "TOKENVERYLONGLONGLONG")]

/-- The mapping at `save` time: the same profile with shorter values. -/
def c2Store : Store := [("example", .sts "AK" "SE" "TO")]

/-- A SAML environment whose base64 decoding succeeds and whose decoded
bytes are not well-formed XML. -/
def samlEnvBadXml : SamlEnv Unit where
  decode := fun _ => some "this is not xml"
  xmlParse := fun _ => none
  xpathBuild := .ok (some ())
  xpathEval := fun _ => .ok .other

/-- A well-formed role-attribute text and the role it parses to. -/
def dupText : String := "arn:p,arn:role/r"

/-- The role `dupText` parses to. -/
def dupRole : Role := ⟨"arn:p", "arn:role/r"⟩

/-- A SAML environment whose document holds two role-attribute-value nodes
with identical, well-formed text. -/
def samlEnvDup : SamlEnv Unit where
  decode := fun _ => some "<xml/>"
  xmlParse := fun _ => some ()
  xpathBuild := .ok (some ())
  xpathEval := fun _ => .ok (.nodeset [dupText, dupText])

/-- A SAML environment with one well-formed role node, used as a success
witness. -/
def samlEnvOne : SamlEnv Unit where
  decode := fun _ => some "<xml/>"
  xmlParse := fun _ => some ()
  xpathBuild := .ok (some ())
  xpathEval := fun _ => .ok (.nodeset [dupText])

/-- A SAML environment whose role-attribute query matches no nodes. -/
def samlEnvNoNodes : SamlEnv Unit where
  decode := fun _ => some "<xml/>"
  xmlParse := fun _ => some ()
  xpathBuild := .ok (some ())
  xpathEval := fun _ => .ok (.nodeset [])

/-- A login response with status `Success` and no session token. -/
def successNoTokenResp : LoginResponse where
  state_token := none
  session_token := none
  expires_at := "2020-01-01T00:00:00.000Z"
  status := .success
  relay_state := none
  embedded := none

/-- An environment whose login returns `successNoTokenResp`; nothing else is
reachable. -/
def authEnvC5 : AuthEnv where
  login := .ok successNoTokenResp
  selectFactor := .error "unused"
  promptCode := .error "unused"
  verify := fun _ _ => .error "unused"

/-- A login response requiring MFA with exactly one factor. -/
def mfaLoginResp : LoginResponse where
  state_token := some "stateTok1"
  session_token := none
  expires_at := "2020-01-01T00:00:00.000Z"
  status := .mfaRequired
  relay_state := none
  embedded := some ⟨["Okta sms"]⟩

/-- The passcode-less (priming) verification response. -/
def mfaPromptResp : LoginResponse where
  state_token := some "stateTok2"
  session_token := none
  expires_at := "2020-01-01T00:00:00.000Z"
  status := .mfaChallenge
  relay_state := none
  embedded := none

/-- A verification response after the passcode whose status is not
`Success` and which carries no session token. -/
def mfaFinalNoToken : LoginResponse where
  state_token := none
  session_token := none
  expires_at := "2020-01-01T00:00:00.000Z"
  status := .mfaChallenge
  relay_state := none
  embedded := none

/-- A verification response after the passcode whose status is not
`Success` but which does carry a session token. -/
def mfaFinalWrongStatus : LoginResponse where
  state_token := none
  session_token := some "sessionTok"
  expires_at := "2020-01-01T00:00:00.000Z"
  status := .passwordExpired
  relay_state := none
  embedded := none

/-- The full MFA flow where the final verification response is
`mfaFinalNoToken`. -/
def authEnvC6 : AuthEnv where
  login := .ok mfaLoginResp
  selectFactor := .error "unused"
  promptCode := .ok "123456"
  verify := fun _ req =>
    match req with
    | .sms _ none => .ok mfaPromptResp
    | .sms _ (some _) => .ok mfaFinalNoToken

/-- The full MFA flow where the final verification response is
`mfaFinalWrongStatus`. -/
def authEnvC6b : AuthEnv where
  login := .ok mfaLoginResp
  selectFactor := .error "unused"
  promptCode := .ok "123456"
  verify := fun _ req =>
    match req with
    | .sms _ none => .ok mfaPromptResp
    | .sms _ (some _) => .ok mfaFinalWrongStatus

/-- An environment used for the C7 witness: MFA with a single factor, every
later step inert. -/
def authEnvC7 : AuthEnv where
  login := .ok mfaLoginResp
  selectFactor := .error "menu never shown"
  promptCode := .error "aborted"
  verify := fun _ _ => .error "offline"

/-- Roles for the C10 witness: one whose arn has no role-name component and
one that matches the requested role name. -/
def exRoles : List Role :=
  [⟨"arn:aws:iam::1:saml-provider/okta", "no-slash-here"⟩,
   ⟨"arn:aws:iam::1:saml-provider/okta", "arn:aws:iam::1:role/admin"⟩]

/-! ## Theorems -/

/-! ### Helper lemmas about the store -/

/-- A key absent from every entry is not found. -/
theorem findProfile_eq_none (s : Store) (n : String) (h : ∀ p ∈ s, n ≠ p.1) :
    findProfile s n = none := by
  induction s with
  | nil => rfl
  | cons p rest ih =>
    obtain ⟨k, v⟩ := p
    have hk : n ≠ k := h (k, v) (List.mem_cons_self _ _)
    simp only [findProfile, if_neg hk]
    exact ih fun q hq => h q (List.mem_cons_of_mem _ hq)

/-- In a sorted store the head key is below every later key. -/
theorem sorted_head_lt (rest : Store) (k : String) (v : ProfileCredentials)
    (hs : StoreSorted ((k, v) :: rest)) : ∀ p ∈ rest, k < p.1 := by
  induction rest generalizing k v with
  | nil => intro p hp; cases hp
  | cons q rest2 ih =>
    obtain ⟨k2, v2⟩ := q
    obtain ⟨h1, h2⟩ := List.chain'_cons.mp hs
    intro p hp
    rcases List.mem_cons.mp hp with h | h
    · rw [h]; exact h1
    · exact lt_trans h1 (ih k2 v2 h2 p h)

/-- C1: upserting into a sorted store: a vacant name is inserted (no error,
nothing else moves), an `Sts` entry is overwritten in place (no error,
nothing else moves), and an `Iam` entry makes `set_profile` return the
conflict error with the whole mapping left exactly as it was. -/
theorem setProfile_conflict_policy (store : Store) (n : String)
    (c : ProfileCredentials) (hs : StoreSorted store) :
    (findProfile store n = none →
      (setProfile store n c).2 = none ∧
      findProfile (setProfile store n c).1 n = some c ∧
      ∀ m, m ≠ n → findProfile (setProfile store n c).1 m = findProfile store m) ∧
    (∀ a sk t, findProfile store n = some (.sts a sk t) →
      (setProfile store n c).2 = none ∧
      findProfile (setProfile store n c).1 n = some c ∧
      ∀ m, m ≠ n → findProfile (setProfile store n c).1 m = findProfile store m) ∧
    (∀ a sk, findProfile store n = some (.iam a sk) →
      (setProfile store n c).1 = store ∧
      (setProfile store n c).2 = some (conflictMsg n)) := by
  induction store with
  | nil =>
    refine ⟨fun _ => ⟨rfl, ?_, ?_⟩, fun a sk t h => by simp [findProfile] at h,
      fun a sk h => by simp [findProfile] at h⟩
    · simp [setProfile, findProfile]
    · intro m hm
      simp [setProfile, findProfile, hm]
  | cons p rest ih =>
    obtain ⟨k, v⟩ := p
    have htail : StoreSorted rest := hs.tail
    have hfind : findProfile ((k, v) :: rest) n =
        if n = k then some v else findProfile rest n := rfl
    rcases eq_or_ne n k with hnk | hnk
    · -- the entry is occupied by (k, v)
      subst hnk
      rw [if_pos rfl] at hfind
      cases v with
      | sts a0 s0 t0 =>
        have hset : setProfile ((n, .sts a0 s0 t0) :: rest) n c =
            ((n, c) :: rest, none) := by
          simp [setProfile]
        refine ⟨fun h => ?_, fun a sk t _ => ?_, fun a sk h => ?_⟩
        · rw [hfind] at h; cases h
        · rw [hset]
          refine ⟨rfl, by simp [findProfile], fun m hm => ?_⟩
          simp [findProfile, if_neg hm]
        · rw [hfind] at h; cases h
      | iam a0 s0 =>
        have hset : setProfile ((n, .iam a0 s0) :: rest) n c =
            ((n, .iam a0 s0) :: rest, some (conflictMsg n)) := by
          simp [setProfile]
        refine ⟨fun h => ?_, fun a sk t h => ?_, fun a sk _ => ?_⟩
        · rw [hfind] at h; cases h
        · rw [hfind] at h; cases h
        · rw [hset]; exact ⟨rfl, rfl⟩
    · rw [if_neg hnk] at hfind
      rcases lt_or_gt_of_ne hnk with hlt | hgt
      · -- n sorts before the head: the tail cannot contain it
        have hrest : findProfile rest n = none :=
          findProfile_eq_none rest n fun p hp =>
            ne_of_lt (lt_trans hlt (sorted_head_lt rest k v hs p hp))
        have hset : setProfile ((k, v) :: rest) n c =
            ((n, c) :: (k, v) :: rest, none) := by
          simp only [setProfile]
          rw [if_neg hnk, if_pos hlt]
        refine ⟨fun _ => ?_, fun a sk t h => ?_, fun a sk h => ?_⟩
        · rw [hset]
          refine ⟨rfl, by simp [findProfile], fun m hm => ?_⟩
          simp [findProfile, if_neg hm]
        · rw [hfind, hrest] at h; cases h
        · rw [hfind, hrest] at h; cases h
      · -- n sorts after the head: recurse into the tail
        have hnlt : ¬ n < k := not_lt.mpr (le_of_lt hgt)
        have hset : setProfile ((k, v) :: rest) n c =
            ((k, v) :: (setProfile rest n c).1, (setProfile rest n c).2) := by
          simp only [setProfile]
          rw [if_neg hnk, if_neg hnlt]
        have preserved :
            findProfile (setProfile rest n c).1 n = some c →
            (∀ m, m ≠ n →
              findProfile (setProfile rest n c).1 m = findProfile rest m) →
            findProfile ((k, v) :: (setProfile rest n c).1) n = some c ∧
            ∀ m, m ≠ n →
              findProfile ((k, v) :: (setProfile rest n c).1) m =
                findProfile ((k, v) :: rest) m := by
          intro h2 h3
          constructor
          · simp [findProfile, if_neg hnk, h2]
          · intro m hm
            by_cases hmk : m = k
            · simp [findProfile, if_pos hmk]
            · simp [findProfile, if_neg hmk, h3 m hm]
        refine ⟨fun h => ?_, fun a sk t h => ?_, fun a sk h => ?_⟩
        · rw [hfind] at h
          obtain ⟨h1, h2, h3⟩ := (ih htail).1 h
          rw [hset]
          exact ⟨h1, (preserved h2 h3).1, (preserved h2 h3).2⟩
        · rw [hfind] at h
          obtain ⟨h1, h2, h3⟩ := (ih htail).2.1 a sk t h
          rw [hset]
          exact ⟨h1, (preserved h2 h3).1, (preserved h2 h3).2⟩
        · rw [hfind] at h
          obtain ⟨h1, h2⟩ := (ih htail).2.2 a sk h
          rw [hset, h1, h2]
          exact ⟨rfl, rfl⟩

/-- C1 witness: on the concrete store `exStore`, whose `example` entry is
`Iam`, upserting fresh STS credentials is refused and the mapping is
unchanged. -/
theorem setProfile_conflict_policy_witness :
    (setProfile exStore "example" exCreds).1 = exStore ∧
    (setProfile exStore "example" exCreds).2 = some (conflictMsg "example") :=
  (setProfile_conflict_policy exStore "example" exCreds
    (by
      refine List.chain'_cons.mpr ⟨?_, List.chain'_singleton _⟩
      rw [String.lt_iff_toList_lt]
      decide)).2.2 "AKIDEXAMPLE" "SECRETEXAMPLE" rfl

/-- C2 (refuted by the code): `save` writes the new serialization from
offset 0 but never truncates the file, so when the new serialization is
shorter than the previous content, the stale tail of the previous content
survives in the file. Concretely: over previous content `c2Prev`
(130 bytes) the 81-byte serialization of `c2Store` is followed by 49 stale
bytes of `c2Prev`, which is not the claimed full replacement. -/
theorem save_keeps_stale_tail :
    save c2Prev c2Store =
      serializeStore c2Store ++
        "NGLONG\r\naws_session_token=TOKENVERYLONGLONGLONG\r\n" ∧
    (serializeStore c2Store).length = 81 ∧ c2Prev.length = 130 :=
  ⟨rfl, rfl, rfl⟩

/-- C3 (refuted by the code): on an input whose base64 decoding succeeds
but whose decoded bytes are not well-formed XML, `Response::from_str` does
not return a document parse error — the `.expect("Failed parsing xml")`
panics. -/
theorem fromStr_panics_on_malformed_xml :
    samlEnvBadXml.decode "dGhpcyBpcyBub3QgeG1s" = some "this is not xml" ∧
    samlEnvBadXml.xmlParse "this is not xml" = none ∧
    Response.fromStr samlEnvBadXml "dGhpcyBpcyBub3QgeG1s" =
      .panic "Failed parsing xml" :=
  ⟨rfl, rfl, rfl⟩

/-! ### Helper lemmas about the SAML parser -/

/-- A successful `collect` keeps one parsed role per node, in order. -/
theorem parseRoles_length (ts : List String) (rs : List Role)
    (h : parseRoles ts = .ok rs) : rs.length = ts.length := by
  induction ts generalizing rs with
  | nil =>
    cases h
    rfl
  | cons t ts ih =>
    simp only [parseRoles] at h
    cases hr : Role.fromStr t with
    | error e => rw [hr] at h; cases h
    | ok r =>
      rw [hr] at h
      cases hp : parseRoles ts with
      | error e => rw [hp] at h; cases h
      | ok rs' =>
        rw [hp] at h
        cases h
        simp [ih rs' hp]

/-- C4 counterexample: a document with two role-attribute-value nodes, both
carrying the same well-formed text, parses successfully, but the returned
collection is a set and holds one role identifier, not the claimed two. -/
theorem duplicate_roles_collapse :
    Role.fromStr dupText = .ok dupRole ∧
    Response.fromStr samlEnvDup "PHhtbC8+" = .ok ⟨"PHhtbC8+", {dupRole}⟩ ∧
    ({dupRole} : Finset Role).card = 1 ∧
    ¬ (({dupRole} : Finset Role).card = 2) := by
  refine ⟨rfl, by decide, rfl, by decide⟩

/-- C4 amended: with `N` role-attribute-value nodes, if every node's text
parses, the whole parse succeeds and returns the set of the `N` parsed role
identifiers — exactly `N` of them when the parsed identifiers are pairwise
distinct, fewer when duplicates collapse (the collection is a set); if at
least one node's text is malformed, the whole parse fails with the role
error and no roles are returned. -/
theorem fromStr_role_collection {Doc : Type} (env : SamlEnv Doc) (s d : String)
    (doc : Doc) (texts : List String)
    (h1 : env.decode s = some d) (h2 : env.xmlParse d = some doc)
    (h3 : env.xpathBuild = .ok (some ()))
    (h4 : env.xpathEval doc = .ok (.nodeset texts)) :
    (∀ rs, parseRoles texts = .ok rs →
      Response.fromStr env s = .ok ⟨s, rs.toFinset⟩ ∧
      rs.length = texts.length ∧
      (rs.Nodup → rs.toFinset.card = texts.length)) ∧
    (∀ e, parseRoles texts = .error e →
      Response.fromStr env s = .err (.role e)) := by
  have hbase : Response.fromStr env s =
      (match parseRoles texts with
       | .error e => .err (.role e)
       | .ok rs => .ok ⟨s, rs.toFinset⟩) := by
    simp only [Response.fromStr, h1, h2, h3, h4]
  refine ⟨fun rs hrs => ?_, fun e he => ?_⟩
  · rw [hbase, hrs]
    refine ⟨rfl, parseRoles_length texts rs hrs, fun hnd => ?_⟩
    rw [List.toFinset_card_of_nodup hnd, parseRoles_length texts rs hrs]
  · rw [hbase, he]

/-- C4 witness: one well-formed node yields exactly that one role. -/
theorem fromStr_role_collection_witness :
    Response.fromStr samlEnvOne "PHhtbC8+" = .ok ⟨"PHhtbC8+", [dupRole].toFinset⟩ :=
  ((fromStr_role_collection samlEnvOne "PHhtbC8+" "<xml/>" () [dupText]
      rfl rfl rfl rfl).1 [dupRole] rfl).1

/-- C8: whenever the parser succeeds, the `raw` field of the result is the
original encoded input string, verbatim. -/
theorem fromStr_raw_verbatim {Doc : Type} (env : SamlEnv Doc) (s : String)
    (r : Response) (h : Response.fromStr env s = .ok r) : r.raw = s := by
  unfold Response.fromStr at h
  repeat' split at h
  all_goals cases h <;> rfl

/-- C8 witness: the parser applied to a concrete input returns it as `raw`. -/
theorem fromStr_raw_verbatim_witness :
    ({ raw := "PHhtbC8+", roles := [dupRole].toFinset } : Response).raw = "PHhtbC8+" :=
  fromStr_raw_verbatim samlEnvOne "PHhtbC8+" ⟨"PHhtbC8+", [dupRole].toFinset⟩ rfl

/-- C9: when the role-attribute query yields no nodes, the parse succeeds
and returns an empty role set, not an error. -/
theorem fromStr_no_nodes_empty_roles {Doc : Type} (env : SamlEnv Doc)
    (s d : String) (doc : Doc)
    (h1 : env.decode s = some d) (h2 : env.xmlParse d = some doc)
    (h3 : env.xpathBuild = .ok (some ()))
    (h4 : env.xpathEval doc = .ok (.nodeset [])) :
    Response.fromStr env s = .ok ⟨s, ∅⟩ := by
  simp only [Response.fromStr, h1, h2, h3, h4, parseRoles]
  rfl

/-- C9 witness: the concrete no-matching-nodes environment. -/
theorem fromStr_no_nodes_empty_roles_witness :
    Response.fromStr samlEnvNoNodes "PHhtbC8+" = .ok ⟨"PHhtbC8+", ∅⟩ :=
  fromStr_no_nodes_empty_roles samlEnvNoNodes "PHhtbC8+" "<xml/>" () rfl rfl rfl rfl

/-! ### The login flow -/

/-- C5 (refuted by the code): on a `Success` login response that carries no
session token, `get_session_token` does not fail with a protocol-violation
error — `response.session_token.unwrap()` panics. -/
theorem getSessionToken_success_unwrap_panics :
    successNoTokenResp.status = .success ∧
    successNoTokenResp.session_token = none ∧
    getSessionToken authEnvC5 = .panic unwrapMsg :=
  ⟨rfl, rfl, rfl⟩

/-- C6 (refuted by the code): after the passcode is re-submitted, the code
checks no status on the resulting verification response. With a final
response whose status is `MfaChallenge` (not a success) and which has no
session token, the call panics on `unwrap` instead of failing with the
claimed fatal "non-MFA-success" error; with a non-success status but a
session token present, the token is returned as if verification had
succeeded. -/
theorem getSessionToken_no_final_status_check :
    mfaFinalNoToken.status = .mfaChallenge ∧
    mfaFinalNoToken.session_token = none ∧
    getSessionToken authEnvC6 = .panic unwrapMsg ∧
    mfaFinalWrongStatus.status = .passwordExpired ∧
    getSessionToken authEnvC6b = .ok "sessionTok" :=
  ⟨rfl, rfl, rfl, rfl, rfl⟩

/-- The post-selection part of the MFA branch never consults the
interactive factor menu. -/
theorem verifyFlow_ignores_menu (env : AuthEnv) (sel : Except String Nat)
    (r : LoginResponse) (f : Factor) :
    verifyFlow { env with selectFactor := sel } r f = verifyFlow env r f := rfl

/-- C7: on an `MfaRequired` login response, an empty embedded factor list
is the fatal "no available factors" error, and a single factor is selected
automatically: the flow proceeds straight into verification with that
factor, and the outcome does not depend on the interactive factor menu at
all. -/
theorem mfa_factor_selection (env : AuthEnv) (r : LoginResponse)
    (emb : LoginEmbedded) (hl : env.login = .ok r)
    (hst : r.status = .mfaRequired) (he : r.embedded = some emb) :
    (emb.factors = [] →
      getSessionToken env = .err "MFA required, and no available factors") ∧
    (∀ f, emb.factors = [f] →
      getSessionToken env = verifyFlow env r f ∧
      ∀ sel, getSessionToken { env with selectFactor := sel } =
        getSessionToken env) := by
  have hbase : getSessionToken env = mfaBranch env r emb.factors := by
    simp only [getSessionToken, hl, hst, he]
  refine ⟨fun h0 => ?_, fun f hf => ⟨?_, fun sel => ?_⟩⟩
  · rw [hbase, h0]; rfl
  · rw [hbase, hf]; rfl
  · have hbase' : getSessionToken { env with selectFactor := sel } =
        mfaBranch { env with selectFactor := sel } r emb.factors := by
      simp only [getSessionToken, hl, hst, he]
    rw [hbase, hbase', hf]
    show verifyFlow { env with selectFactor := sel } r f = verifyFlow env r f
    exact verifyFlow_ignores_menu env sel r f

/-- C7 witness: with one factor available, swapping in a different menu
collaborator changes nothing about the call. -/
theorem mfa_factor_selection_witness :
    getSessionToken { authEnvC7 with selectFactor := .ok 5 } =
      getSessionToken authEnvC7 :=
  ((mfa_factor_selection authEnvC7 mfaLoginResp ⟨["Okta sms"]⟩ rfl rfl rfl).2
    "Okta sms" rfl).2 (.ok 5)

/-! ### The orchestrator's role matching -/

/-- C10: in the role-matching step of `fetch_credentials`, a role whose
name cannot be extracted is never the selected role (any selected role's
name equals the requested name), and the "no matching role" error is
raised exactly when no role's extractable name equals the requested
name. -/
theorem findMatchingRole_spec (roles : List Role) (target pname : String) :
    (∀ r, findMatchingRole roles target pname = .ok r →
      r.roleName = some target ∧ r ∈ roles) ∧
    (findMatchingRole roles target pname =
        .error (noMatchingRoleMsg target pname) ↔
      ∀ r ∈ roles, ¬ (r.roleName = some target)) := by
  constructor
  · intro r h
    unfold findMatchingRole at h
    cases hf : roles.find?
        (fun r => (r.roleName.map (fun n => n == target)).getD false) with
    | none => rw [hf] at h; cases h
    | some r' =>
      rw [hf] at h
      cases h
      have hp := List.find?_some hf
      refine ⟨?_, List.mem_of_find?_eq_some hf⟩
      cases hrn : r.roleName with
      | none => rw [hrn] at hp; cases hp
      | some nm =>
        rw [hrn] at hp
        have hnt : nm = target := by simpa using hp
        rw [hnt]
  · constructor
    · intro h r hr hname
      unfold findMatchingRole at h
      cases hf : roles.find?
          (fun r => (r.roleName.map (fun n => n == target)).getD false) with
      | some r' => rw [hf] at h; cases h
      | none =>
        have hnp := List.find?_eq_none.mp hf r hr
        rw [hname] at hnp
        simp at hnp
    · intro hall
      unfold findMatchingRole
      have hnone : roles.find?
          (fun r => (r.roleName.map (fun n => n == target)).getD false) = none := by
        rw [List.find?_eq_none]
        intro r hr hpred
        cases hrn : r.roleName with
        | none => rw [hrn] at hpred; cases hpred
        | some nm =>
          rw [hrn] at hpred
          have hnt : nm = target := by simpa using hpred
          exact hall r hr (by rw [hrn, hnt])
      rw [hnone]

/-- C10 witness: among `exRoles` — one arn without an extractable name and
one whose name is `admin` — the matcher selects the latter. -/
theorem findMatchingRole_spec_witness :
    (⟨"arn:aws:iam::1:saml-provider/okta",
      "arn:aws:iam::1:role/admin"⟩ : Role).roleName = some "admin" ∧
    (⟨"arn:aws:iam::1:saml-provider/okta",
      "arn:aws:iam::1:role/admin"⟩ : Role) ∈ exRoles :=
  (findMatchingRole_spec exRoles "admin" "prof").1
    ⟨"arn:aws:iam::1:saml-provider/okta", "arn:aws:iam::1:role/admin"⟩ rfl

end Oktad
